import Mathlib

/-!
# Verification of the habit-coaching pipeline (`ai_nodes.py`)

A shallow embedding of the pipeline stage functions of `ai_nodes.py`:
the generation gateway `_llm_json`, the stages `safety_node`,
`quiz_form_node`, `plan21_node`, `why_day_node`, `coach_node`, the
deterministic `_category_guidance` engine and the `_fallback_plan21`
synthesizer.

The fallible text-generation capability is modelled as an explicit
behaviour function passed to each stage; every theorem below quantifies
over that behaviour.  A capability call either raises or returns a
value; for the JSON gateway the returned content is modelled by its
parse result (an optional JSON value), since the gateway immediately
feeds the raw content to `json.loads` and uses nothing else of it.

The `schemas` module of the repository (pydantic models `HabitState`,
`SafetyResult`, `QuizForm`, `QuizSummary`, `Plan21D`) is not part of the
given sources; those record types and the validation performed by
`Plan21D(**data)` are modelled from the specification (§3 of the spec).

Machine reals (Python floats such as the sampling temperature) are
modelled as rationals; the only arithmetic performed on them is
`temperature + 0.2 * attempt_index`.

The English prompt literals of `prompts.py` are out of the specified
core (spec §1 excludes prompt text); they are embedded as abbreviated
template functions that keep the exact data flow of their interpolated
arguments.  No theorem depends on the content of a prompt constant: the
generation behaviour is universally quantified everywhere.
-/

set_option maxRecDepth 16384

/-- A parsed JSON value, as produced by `json.loads`. -/
inductive JsonVal where
  | null
  | bool (b : Bool)
  | num (n : Int)
  | str (s : String)
  | arr (xs : List JsonVal)
  | obj (fields : List (String × JsonVal))

/-- Python truthiness (`or` chains) restricted to strings: `a or b`. -/
def orD (a b : String) : String := if a = "" then b else a

/-- Python `str.lower()` (basic-latin case folding, per-character). -/
def pyLower (s : String) : String := ⟨s.data.map Char.toLower⟩

/-- Python `str.strip()`: remove leading and trailing whitespace (defined on
the character list so that it reduces in the kernel; Lean's whitespace set
`' '`, `'\t'`, `'\r'`, `'\n'` stands in for Python's). -/
def pyStrip (s : String) : String :=
  ⟨((s.data.dropWhile Char.isWhitespace).reverse.dropWhile Char.isWhitespace).reverse⟩

/-- Python blank test `not s.strip()`: every character is whitespace. -/
def pyBlank (s : String) : Bool :=
  ((s.data.dropWhile Char.isWhitespace).reverse.dropWhile Char.isWhitespace).reverse.isEmpty

/-- Helper for `pyWords`: split a character list on whitespace runs,
accumulating the current (reversed) word. -/
def wordsAux : List Char → List Char → List String
  | [], acc => if acc.isEmpty then [] else [⟨acc.reverse⟩]
  | c :: cs, acc =>
      if c.isWhitespace then
        if acc.isEmpty then wordsAux cs [] else String.mk acc.reverse :: wordsAux cs []
      else wordsAux cs (c :: acc)

/-- Python `str.split()` with no separator: whitespace-separated words,
empty pieces dropped. -/
def pyWords (s : String) : List String := wordsAux s.data []

/-- Falsiness of a JSON value under Python truth testing
(`None`, `False`, `0`, `""`, `[]`, `{}` are falsy). -/
def jsonFalsy : JsonVal → Bool
  | .null => true
  | .bool b => !b
  | .num n => n == 0
  | .str s => s == ""
  | .arr xs => xs.isEmpty
  | .obj fs => fs.isEmpty

/-- `dict.get`: first binding of a key in an association list. -/
def jLookup (fields : List (String × JsonVal)) (k : String) : Option JsonVal :=
  (fields.find? (·.1 = k)).map (·.2)

/-- `dict[k] = v`: replace the binding if the key is present, else append. -/
def jSet (fields : List (String × JsonVal)) (k : String) (v : JsonVal) :
    List (String × JsonVal) :=
  if fields.any (·.1 = k) then
    fields.map (fun p => if p.1 = k then (k, v) else p)
  else
    fields ++ [(k, v)]

/-- Lookup in a string-valued association list (a Python `dict[str, str]`). -/
def sLookup (m : List (String × String)) (k : String) : Option String :=
  (m.find? (·.1 = k)).map (·.2)

-- ---------------------------------------------------------------------------
-- Schemas, modelled from the spec (the `schemas` module is not in src/).
-- ---------------------------------------------------------------------------

/-- Modelled from the spec: `SafetyResult` of the missing `schemas` module —
`risk` ∈ \x7bnone, self_harm, eating_disorder, severe_addiction, violence,
other\x7d, `action` ∈ \x7ballow, block_and_escalate\x7d, `message` user-facing
text. -/
structure SafetyResult where
  risk : String
  action : String
  message : String
deriving DecidableEq, Repr

/-- Modelled from the spec: one MCQ option of a quiz question (`schemas`
module missing from src/): unique `id`, `label`, optional `helper_text`. -/
structure QOption where
  id : String
  label : String
  helper_text : Option String
deriving DecidableEq, Repr

/-- Modelled from the spec: one quiz question (`schemas` module missing from
src/): `id`, `question` text, optional `helper_text`, exactly 4 options. -/
structure Question where
  id : String
  question : String
  helper_text : Option String
  options : List QOption
deriving DecidableEq, Repr

/-- Modelled from the spec: `QuizForm` of the missing `schemas` module —
`habit_name_guess` and an ordered sequence of questions. -/
structure QuizForm where
  habit_name_guess : String
  questions : List Question
deriving DecidableEq, Repr

/-- Modelled from the spec: `QuizSummary` of the missing `schemas` module —
a flat record of string-valued diagnostic fields.  The mechanism fields are
carried for completeness; the embedded stages only read the fields listed
in `_category_guidance` and `_fallback_plan21`. -/
structure QuizSummary where
  user_habit_raw : String := ""
  canonical_habit_name : String := ""
  habit_category : String := ""
  category_confidence : String := ""
  product_type : String := ""
  severity_level : String := ""
  core_loop : String := ""
  primary_payoff : String := ""
  avoidance_target : String := ""
  identity_link : String := ""
  dopamine_profile : String := ""
  collapse_condition : String := ""
  long_term_cost : String := ""
  main_trigger : String := ""
  peak_times : String := ""
  common_locations : String := ""
  emotional_patterns : String := ""
  frequency_pattern : String := ""
  previous_attempts : String := ""
  motivation_reason : String := ""
  risk_situations : String := ""
deriving DecidableEq, Repr

/-- Modelled from the spec: `Plan21D` of the missing `schemas` module —
`plan_summary` and `day_tasks`, a mapping (kept as an ordered association
list, as a Python dict preserves insertion order). -/
structure Plan21D where
  plan_summary : String
  day_tasks : List (String × String)
deriving DecidableEq, Repr

/-- One chat turn `\x7b"role": …, "content": …\x7d`. -/
structure ChatMsg where
  role : String
  content : String
deriving DecidableEq, Repr

/-- Modelled from the spec: the `HabitState` record threaded through the
pipeline (`schemas` module missing from src/).  `user_quiz_answers` is not
read by any embedded stage and is omitted. -/
structure HabitState where
  user_id : Option String := none
  habit_description : Option String := none
  last_user_message : Option String := none
  safety : Option SafetyResult := none
  quiz_form : Option QuizForm := none
  quiz_summary : Option QuizSummary := none
  plan21 : Option Plan21D := none
  chat_history : List ChatMsg := []
  last_why_day : Option String := none
  last_why_explanation : Option String := none

/-- The canonical day keys `day_1 .. day_21`. -/
def dayKey (i : Nat) : String := "day_" ++ toString i

/-- All 21 day keys in order. -/
def dayKeys : List String := (List.range' 1 21).map dayKey

/-- Modelled from the spec: the validation performed by `Plan21D(**data)` —
construction succeeds iff `plan_summary` is a string, `day_tasks` is a
string-to-string mapping with exactly the keys `day_1..day_21`, and every
value is a non-empty string (spec §3: "mapping with exactly the keys
`day_1..day_21`, each value a non-empty short directive string"); extra
top-level fields are ignored. -/
def mkPlan21D (fields : List (String × JsonVal)) : Option Plan21D :=
  match jLookup fields "plan_summary", jLookup fields "day_tasks" with
  | some (.str ps), some (.obj dts) =>
      let ok := dayKeys.all (fun k =>
          match jLookup dts k with
          | some (.str v) => v ≠ ""
          | _ => false)
        && dts.all (fun kv => dayKeys.contains kv.1)
      if ok then
        some ⟨ps, dts.filterMap (fun kv =>
          match kv.2 with
          | .str v => some (kv.1, v)
          | _ => none)⟩
      else none
  | _, _ => none

-- ---------------------------------------------------------------------------
-- Generation-capability behaviours.
-- ---------------------------------------------------------------------------

/-- Outcome of one JSON-mode capability call (`ChatOpenAI(...).invoke` followed
by `json.loads`): the call raises, or returns content whose JSON parse is
`some v` (parse succeeded) or `none` (parse failed). -/
inductive JOut where
  | raises
  | returns (parsed : Option JsonVal)

/-- A behaviour of the JSON-mode capability: outcome as a function of the
prompt and the sampling temperature. -/
def JsonBhv := String → ℚ → JOut

/-- A behaviour of the structured-output capability for schema `α`
(`with_structured_output`): a conforming instance, or an error. -/
def StructBhv (α : Type) := String → ℚ → Except Unit α

/-- A behaviour of the freeform-text capability: the reply content, or an
error. -/
def TextBhv := String → ℚ → Except Unit String

/-- The instruction appended to the prompt after each JSON parse failure in
`_llm_json`. -/
def STRICT_JSON_SUFFIX : String :=
  "\nReturn STRICT JSON. No commentary. Do NOT repeat previous suggestions."

/-- Result of `_llm_json` together with the trace of capability calls made
(prompt and temperature of each call, in order).  `Except.error ()` records
that the function itself raised (an un-caught capability exception). -/
def llmJsonAux (bhv : JsonBhv) :
    Nat → Nat → String → ℚ → Except Unit JsonVal × List (String × ℚ)
  | 0, _, _, _ => (.ok (.obj []), [])
  | fuel + 1, attempt, prompt, baseTemp =>
      let temp := baseTemp + attempt * (0.2 : ℚ)
      match bhv prompt temp with
      | .raises => (.error (), [(prompt, temp)])
      | .returns (some v) => (.ok v, [(prompt, temp)])
      | .returns none =>
          let rest := llmJsonAux bhv fuel (attempt + 1)
            (prompt ++ STRICT_JSON_SUFFIX) baseTemp
          (rest.1, (prompt, temp) :: rest.2)

/-- `_llm_json(prompt, max_tokens, temperature, retries)` of `ai_nodes.py`.
`max_tokens` is accepted and, as in the source, never used.  Returns the
parsed value (the empty mapping once the retry budget is exhausted) or an
uncaught exception, together with the list of capability calls made. -/
def llm_json (bhv : JsonBhv) (prompt : String) (_max_tokens : Nat := 800)
    (temperature : ℚ := 0.5) (retries : Nat := 2) :
    Except Unit JsonVal × List (String × ℚ) :=
  llmJsonAux bhv retries 0 prompt temperature

-- ---------------------------------------------------------------------------
-- Prompt templates.  Spec §1 places the English prompt text outside the
-- specified core; the templates below are abbreviated stand-ins that keep the
-- exact data flow of the interpolated arguments.  Every theorem in this file
-- quantifies over the generation behaviour, so no result depends on the
-- content of these constants.
-- ---------------------------------------------------------------------------

/-- Stand-in for `SAFETY_PROMPT.format(user_text=...)`. -/
def SAFETY_PROMPT_T (user_text : String) : String :=
  "SAFETY_PROMPT\nuser_text:\n" ++ user_text

/-- Stand-in for `QUIZ_GENERATOR_PROMPT.format(habit_description=...)`. -/
def QUIZ_GENERATOR_PROMPT_T (habit_description : String) : String :=
  "QUIZ_GENERATOR_PROMPT\nhabit_description:\n" ++ habit_description

/-- Stand-in for `PLAN_21D_PROMPT.format(quiz_summary_json=..., category_guidance=...)`. -/
def PLAN_21D_PROMPT_T (quiz_summary_json category_guidance : String) : String :=
  "PLAN_21D_PROMPT\nquiz_summary_json:\n" ++ quiz_summary_json ++
  "\ncategory_guidance:\n" ++ category_guidance

/-- Stand-in for the unformatted `WHY_DAY_PROMPT` base instruction. -/
def WHY_DAY_PROMPT : String := "WHY_DAY_PROMPT"

/-- Stand-in for the unformatted `COACH_PROMPT` base instruction. -/
def COACH_PROMPT : String := "COACH_PROMPT"

-- ---------------------------------------------------------------------------
-- Stage: Safety Classification (`safety_node`).
-- ---------------------------------------------------------------------------

/-- The freshest user text: `last_user_message or habit_description or
getattr(state, "user_input", "") or ""`.  `HabitState` has no `user_input`
field, so the third link of the chain is the empty string. -/
def stateUserText (st : HabitState) : String :=
  orD (st.last_user_message.getD "") (orD (st.habit_description.getD "") "")

/-- The hard-coded conservative block produced by `safety_node` when the
structured generation call raises. -/
def safetyFallbackResult : SafetyResult :=
  { risk := "other"
    action := "block_and_escalate"
    message :=
      "I’m here only for habit and behavior coaching, so I can’t safely respond to this. " ++
      "Please avoid medical, illegal, or harmful topics, and consider reaching out to a " ++
      "trusted person or local professional if you’re in distress." }

/-- `safety_node` of `ai_nodes.py`: classify the latest user text; on any
exception from the structured generation call, fall back to the deterministic
block.  The returned value is the `safety` field of the partial update. -/
def safety_node (bhv : StructBhv SafetyResult) (st : HabitState) : SafetyResult :=
  match bhv (SAFETY_PROMPT_T (stateUserText st)) 0.1 with
  | .ok s => s
  | .error _ => safetyFallbackResult

-- ---------------------------------------------------------------------------
-- Stage: Quiz Generation (`quiz_form_node`).
-- ---------------------------------------------------------------------------

/-- The fixed fallback quiz built inside `quiz_form_node`'s `except` branch,
parameterized by `habit_description` (the habit label defaults to
"this habit" when the description is empty). -/
def fallbackQuizForm (habit_description : String) : QuizForm :=
  let habit_label := orD habit_description "this habit"
  { habit_name_guess := habit_label
    questions := [
      { id := "q1"
        question := "How often do you usually do " ++ habit_label ++ "?"
        helper_text := some "Think about an average week."
        options := [
          { id := "q1_a", label := "Less than once a week", helper_text := none },
          { id := "q1_b", label := "1–3 times a week", helper_text := none },
          { id := "q1_c", label := "4–7 times a week", helper_text := none },
          { id := "q1_d", label := "Multiple times per day", helper_text := none }] },
      { id := "q2"
        question := "At what times of day does " ++ habit_label ++ " usually happen most?"
        helper_text := none
        options := [
          { id := "q2_a", label := "Morning", helper_text := none },
          { id := "q2_b", label := "Afternoon", helper_text := none },
          { id := "q2_c", label := "Evening", helper_text := none },
          { id := "q2_d", label := "Late night / before sleep", helper_text := none }] },
      { id := "q3"
        question := "Where are you most often when " ++ habit_label ++ " happens?"
        helper_text := some "For example: bedroom, desk, bathroom, outside, with friends."
        options := [
          { id := "q3_a", label := "Mostly at home", helper_text := none },
          { id := "q3_b", label := "Mostly outside", helper_text := none },
          { id := "q3_c", label := "Mostly at work / study place", helper_text := none },
          { id := "q3_d", label := "It changes a lot", helper_text := none }] },
      { id := "q4"
        question := "Right before " ++ habit_label ++ ", you are usually…"
        helper_text := some "Pick the closest option."
        options := [
          { id := "q4_a", label := "Bored or passing time", helper_text := none },
          { id := "q4_b", label := "Stressed / anxious / overwhelmed", helper_text := none },
          { id := "q4_c", label := "Lonely / sad", helper_text := none },
          { id := "q4_d", label := "Generally okay or even excited", helper_text := none }] },
      { id := "q5"
        question := "What usually triggers you to do " ++ habit_label ++ "?"
        helper_text := none
        options := [
          { id := "q5_a", label := "Seeing or having the product/device nearby", helper_text := none },
          { id := "q5_b", label := "Notifications, apps, or online content", helper_text := none },
          { id := "q5_c", label := "Specific people, places, or routines", helper_text := none },
          { id := "q5_d", label := "Mostly my internal feelings / thoughts", helper_text := none }] },
      { id := "q6"
        question := "How strong does the urge for " ++ habit_label ++ " feel when it appears?"
        helper_text := none
        options := [
          { id := "q6_a", label := "Mild – I can ignore it if needed", helper_text := none },
          { id := "q6_b", label := "Moderate – uncomfortable but manageable", helper_text := none },
          { id := "q6_c", label := "Strong – very hard to resist", helper_text := none },
          { id := "q6_d", label := "Overwhelming – I almost always give in", helper_text := none }] },
      { id := "q7"
        question := "Have you tried to cut down or stop " ++ habit_label ++ " before?"
        helper_text := none
        options := [
          { id := "q7_a", label := "No, this is my first serious attempt", helper_text := none },
          { id := "q7_b", label := "Yes, once or twice", helper_text := none },
          { id := "q7_c", label := "Yes, many times with short success", helper_text := none },
          { id := "q7_d", label := "Yes, but I never really committed", helper_text := none }] },
      { id := "q8"
        question := "Right now, how ready do you feel to change " ++ habit_label ++ "?"
        helper_text := none
        options := [
          { id := "q8_a", label := "Just exploring, not really ready", helper_text := none },
          { id := "q8_b", label := "Somewhat ready, but scared / unsure", helper_text := none },
          { id := "q8_c", label := "Ready to seriously reduce it", helper_text := none },
          { id := "q8_d", label := "Very ready – I want big change", helper_text := none }] }] }

/-- `quiz_form_node` of `ai_nodes.py`: generate a tailored MCQ quiz; on any
exception from the structured generation call, substitute the fixed fallback
quiz tied to the described habit.  The returned value is the `quiz_form`
field of the partial update. -/
def quiz_form_node (bhv : StructBhv QuizForm) (st : HabitState) : QuizForm :=
  let habit_description := st.habit_description.getD ""
  match bhv (QUIZ_GENERATOR_PROMPT_T habit_description) 0.4 with
  | .ok q => q
  | .error _ => fallbackQuizForm habit_description

-- ---------------------------------------------------------------------------
-- Category Guidance Engine (`_category_guidance`).
-- ---------------------------------------------------------------------------

/-- `name = summary.canonical_habit_name or summary.user_habit_raw or "the habit"`. -/
def guidanceName (s : QuizSummary) : String :=
  orD s.canonical_habit_name (orD s.user_habit_raw "the habit")

/-- `trigger = summary.main_trigger or "unclear triggers"`. -/
def guidanceTrigger (s : QuizSummary) : String := orD s.main_trigger "unclear triggers"

/-- `peak = summary.peak_times or "unclear peak times"`. -/
def guidancePeak (s : QuizSummary) : String := orD s.peak_times "unclear peak times"

/-- `loc = summary.common_locations or "unclear locations"`. -/
def guidanceLoc (s : QuizSummary) : String := orD s.common_locations "unclear locations"

/-- `emo = summary.emotional_patterns or "unclear emotional patterns"`. -/
def guidanceEmo (s : QuizSummary) : String := orD s.emotional_patterns "unclear emotional patterns"

/-- `freq = summary.frequency_pattern or "unclear frequency"`. -/
def guidanceFreq (s : QuizSummary) : String := orD s.frequency_pattern "unclear frequency"

/-- `motive = summary.motivation_reason or "unclear motivation"`. -/
def guidanceMotive (s : QuizSummary) : String := orD s.motivation_reason "unclear motivation"

/-- `risk = summary.risk_situations or "unclear risk situations"`. -/
def guidanceRisk (s : QuizSummary) : String := orD s.risk_situations "unclear risk situations"

/-- `prev = summary.previous_attempts or "not clearly described"`. -/
def guidancePrev (s : QuizSummary) : String := orD s.previous_attempts "not clearly described"

/-- The `base_context` block of `_category_guidance`. -/
def guidanceBaseContext (s : QuizSummary) : String :=
  let raw := s.user_habit_raw
  let name := guidanceName s
  let severity := s.severity_level
  let trigger := guidanceTrigger s
  let peak := guidancePeak s
  let loc := guidanceLoc s
  let emo := guidanceEmo s
  let freq := guidanceFreq s
  let motive := guidanceMotive s
  let risk := guidanceRisk s
  let prev := guidancePrev s
  "\nUser-specific context:\n- Exact wording: " ++ raw ++
  "\n- Canonical habit name: " ++ name ++
  "\n- Severity: " ++ severity ++
  "\n- Main trigger: " ++ trigger ++
  "\n- Peak times (when it MOST OFTEN happens, not the only possible times): " ++ peak ++
  "\n- Common locations (where it MOST OFTEN happens, not the only places): " ++ loc ++
  "\n- Emotional pattern: " ++ emo ++
  "\n- Frequency pattern: " ++ freq ++
  "\n- Motivation: " ++ motive ++
  "\n- High-risk situations: " ++ risk ++
  "\n- Previous attempts: " ++ prev ++
  "\n\nGlobal rules for using this information in the 21-day plan:\n- Treat peak times and common locations as patterns or hotspots, NOT as exclusive rules.\n- Do NOT assume the habit only happens at " ++ loc ++
  " or only during " ++ peak ++
  " unless the summary explicitly says so.\n- At most about half of the daily tasks should explicitly mention a specific location like " ++ loc ++
  ".\n- At most about half of the daily tasks should explicitly mention a specific time window like " ++ peak ++
  ".\n- The remaining tasks should either be:\n  - location-agnostic (work anywhere), or\n  - clearly applicable across multiple contexts (home, outside, work, with friends, etc.).\n- Use language like \"often at home\", \"usually late at night\", \"especially in your room\"\n  instead of \"only at home\" or \"always late at night\", unless the summary literally says it ONLY happens there.\n- Make sure at least a few tasks explicitly handle situations where the habit appears\n  in other places or times than " ++ loc ++
  " / " ++ peak ++
  " (for example outside, with friends, or at random times).\n\nPlan must explicitly reference these details across the 21 days, but in a BALANCED way that still works\nif the habit also shows up in other places or times.\n"

/-- The `Category: Nicotine` block (categories `nicotine_smoking`,
`nicotine_vaping`, `nicotine_oral`). -/
def nicotineBlock (s : QuizSummary) : String :=
  "\nCategory: Nicotine\n\nCore strategy:\n- Treat " ++ guidanceName s ++
  " as a dopamine and ritual loop, not just a chemical.\n- Emphasize routines around peak times (for example " ++ guidancePeak s ++
  "), and environments like " ++ guidanceLoc s ++
  ".\n- Explicitly build friction around storage, access, purchase, and first use of the day.\n- For oral products like pouches, include mouth and hand substitution tasks.\n- For higher severity, include more aggressive environment restructuring and longer urge delays.\n\nMust include across 21 days:\n- At least 4 tasks about changing where " ++ guidanceName s ++
  " is kept or accessed.\n- At least 4 tasks about first use of the day and last use window.\n- At least 3 tasks about physical state regulation during withdrawal (sleep window, hydration, body movement).\n- At least 3 tasks that use emotional patterns like " ++ guidanceEmo s ++
  " to pre-empt urges.\n"

/-- The `Category: Pornography / sexual content` block. -/
def pornographyBlock (s : QuizSummary) : String :=
  "\nCategory: Pornography / sexual content\n\nCore strategy:\n- Treat " ++ guidanceName s ++
  " as a privacy plus device plus emotional loop.\n- Focus on device rules, room layout, and late-night behaviour, especially around " ++ guidancePeak s ++
  ".\n- Explicitly design friction around entering high-risk locations such as " ++ guidanceLoc s ++
  ".\n- Use stimulus control (lights, door, blockers, charging locations) instead of just \"willpower\".\n- Tie reflection tasks to shame cycles and emotion patterns like " ++ guidanceEmo s ++
  ", but without using shame language.\n\nMust include across 21 days:\n- At least 4 tasks that change how and where the device is used.\n- At least 3 tasks that pre-empt late-night or alone-time triggers.\n- At least 3 tasks that redirect immediately after a strong urge into a specific alternative behaviour.\n- At least 2 tasks that review a slip in a non-judgmental, purely diagnostic way.\n"

/-- The `Category: Screen-based habit` block (categories `screen_time`,
`social_media`, `gaming`). -/
def screenBlock (s : QuizSummary) : String :=
  "\nCategory: Screen-based habit (social media, scrolling, or gaming)\n\nCore strategy:\n- Treat " ++ guidanceName s ++
  " as an algorithm plus environment plus boredom loop.\n- Focus on first and last 30 minutes of the day, especially if peak times include " ++ guidancePeak s ++
  ".\n- Redesign notification logic, home screen layout, and app availability.\n- Use strong \"screen zones\" and \"screen windows\" instead of unrealistic total bans.\n- Tie replacement activities to the motivation: " ++ guidanceMotive s ++
  ".\n\nMust include across 21 days:\n- At least 3 tasks modifying notifications, app positions, or app removal.\n- At least 3 tasks that change morning behaviour before the first use.\n- At least 3 tasks that change evening behaviour and pre-sleep routines.\n- At least 3 tasks that deliberately swap a high-risk scrolling window with something aligned to " ++ guidanceMotive s ++
  ".\n"

/-- The `Category: Substance use` block (categories `alcohol`, `cannabis`). -/
def substanceBlock (s : QuizSummary) : String :=
  "\nCategory: Substance use (alcohol or cannabis)\n\nCore strategy:\n- Treat " ++ guidanceName s ++
  " as a context plus people plus emotional regulation loop.\n- Focus on social settings, routes, and specific times like " ++ guidancePeak s ++
  ".\n- Include clear \"no-use\" contexts and re-routing strategies for high-risk places like " ++ guidanceLoc s ++
  ".\n- Include craving delay plus alternative rituals at the exact times they usually use.\n- Tie medium-term tasks to motivation " ++ guidanceMotive s ++
  " and long-term identity.\n\nMust include across 21 days:\n- At least 3 tasks that alter routes or places that usually lead to use.\n- At least 3 tasks that create explicit \"no-use\" rules in specific contexts.\n- At least 3 tasks focused on high-risk situations described as " ++ guidanceRisk s ++
  ".\n- At least 2 tasks rehearsing what to do during a social invite or stress spike.\n"

/-- The `Category: Food / sugar / overeating` block (categories `sugar`,
`food_overeating`). -/
def foodBlock (s : QuizSummary) : String :=
  "\nCategory: Food / sugar / overeating\n\nCore strategy:\n- Treat " ++ guidanceName s ++
  " as a kitchen plus shopping plus emotional soothing loop.\n- Focus on visibility and proximity of foods, especially around locations like " ++ guidanceLoc s ++
  ".\n- Tie tasks to emotional states like " ++ guidanceEmo s ++
  " and times like " ++ guidancePeak s ++
  ".\n- Include shopping list and preparation changes that reduce impulsive access.\n- Use small plate, portion, and environment tricks rather than \"never eat X again\" rules.\n\nMust include across 21 days:\n- At least 3 tasks about shopping or preparing alternatives in advance.\n- At least 3 tasks about changing visibility and proximity of trigger foods.\n- At least 3 tasks about emotional check-ins before eating in high-risk moments.\n- At least 2 tasks about how to handle evenings or specific risk situations like " ++ guidanceRisk s ++
  ".\n"

/-- The `Category: Spending / gambling` block (categories `shopping_spending`,
`gambling`). -/
def spendingBlock (s : QuizSummary) : String :=
  "\nCategory: Spending / gambling\n\nCore strategy:\n- Treat " ++ guidanceName s ++
  " as a excitement plus access plus impulse loop.\n- Focus on financial access: cards, apps, cash, sites, groups.\n- Use strong pre-commitment rules, delays, and visibility of consequences.\n- Tie specific tasks to high-risk times or contexts like " ++ guidancePeak s ++
  " and " ++ guidanceRisk s ++
  ".\n- Use replacement forms of excitement or reward that are lower-risk.\n\nMust include across 21 days:\n- At least 3 tasks about restricting or delaying financial access.\n- At least 3 tasks about changing what happens in the 10–20 minutes before spending or betting.\n- At least 2 tasks about reviewing a past spending or gambling episode analytically, not emotionally.\n- At least 2 tasks that explicitly reinforce the motivation: " ++ guidanceMotive s ++
  ".\n"

/-- The `Category: Procrastination` block. -/
def procrastinationBlock (s : QuizSummary) : String :=
  "\nCategory: Procrastination\n\nCore strategy:\n- Treat " ++ guidanceName s ++
  " as avoidance of a specific type of work or feeling.\n- Tie tasks directly to the kind of work they avoid most (for example study or deep work).\n- Use very small, clear start behaviours instead of vague discipline tasks.\n- Design environment and time box rules around the true peak avoidance windows like " ++ guidancePeak s ++
  ".\n- Link identity work to becoming someone who handles " ++ guidanceTrigger s ++
  " with short, focused bursts.\n\nMust include across 21 days:\n- At least 5 tasks that define a tiny, concrete starting action (for example open document and write one sentence).\n- At least 3 tasks that reduce distractions in the main work location " ++ guidanceLoc s ++
  ".\n- At least 3 tasks that handle emotional patterns like " ++ guidanceEmo s ++
  " before work instead of during.\n- At least 2 tasks that rehearse what to do after a bad day without abandoning the plan.\n"

/-- The default `Category: Other or unclear` block. -/
def otherBlock (s : QuizSummary) : String :=
  "\nCategory: Other or unclear\n\nCore strategy:\n- The category label is not precise, so lean heavily on the user\x27s actual patterns.\n- Design tasks explicitly around the main trigger " ++ guidanceTrigger s ++
  ", peak times " ++ guidancePeak s ++
  ", and locations " ++ guidanceLoc s ++
  ".\n- Use emotional pattern " ++ guidanceEmo s ++
  " to time interventions before the urge becomes very strong.\n- Apply standard habit-breaking tools: friction, replacement, identity, slip recovery, environment design.\n\nMust include across 21 days:\n- At least 5 tasks that directly reference the described triggers, times, or locations.\n- At least 3 tasks that practice urge delay plus a named replacement behaviour.\n- At least 2 tasks that explicitly connect daily actions to the motivation: " ++ guidanceMotive s ++
  ".\n"

/-- The lowercased category used for dispatch:
`cat = (summary.habit_category or "other").lower()`. -/
def guidanceCat (s : QuizSummary) : String := pyLower (orD s.habit_category "other")

/-- The category keys that select a specific block of the dispatch table; any
other lowercased category falls to the `Other or unclear` default branch. -/
def knownCategoryKeys : List String :=
  ["nicotine_smoking", "nicotine_vaping", "nicotine_oral", "pornography",
   "screen_time", "social_media", "gaming", "alcohol", "cannabis", "sugar",
   "food_overeating", "shopping_spending", "gambling", "procrastination"]

/-- The `if/elif` dispatch of `_category_guidance` on the lowercased
category. -/
def categoryBlock (cat : String) (s : QuizSummary) : String :=
  if cat = "nicotine_smoking" ∨ cat = "nicotine_vaping" ∨ cat = "nicotine_oral" then
    nicotineBlock s
  else if cat = "pornography" then pornographyBlock s
  else if cat = "screen_time" ∨ cat = "social_media" ∨ cat = "gaming" then screenBlock s
  else if cat = "alcohol" ∨ cat = "cannabis" then substanceBlock s
  else if cat = "sugar" ∨ cat = "food_overeating" then foodBlock s
  else if cat = "shopping_spending" ∨ cat = "gambling" then spendingBlock s
  else if cat = "procrastination" then procrastinationBlock s
  else otherBlock s

/-- `_category_guidance` of `ai_nodes.py`: `base_context + "\n" + cat_block`. -/
def category_guidance (s : QuizSummary) : String :=
  guidanceBaseContext s ++ "\n" ++ categoryBlock (guidanceCat s) s

-- ---------------------------------------------------------------------------
-- Fallback Plan Synthesizer (`_fallback_plan21`).
-- ---------------------------------------------------------------------------

/-- `_fallback_plan21` of `ai_nodes.py`: the deterministic, generation-free
21-day plan, parameterized by the optional `QuizSummary`. -/
def fallback_plan21 (quiz_summary : Option QuizSummary) : Plan21D :=
  let habit := match quiz_summary with
    | some qs => orD qs.canonical_habit_name (orD qs.user_habit_raw "your habit")
    | none => "your habit"
  let trigger := match quiz_summary with
    | some qs => orD qs.main_trigger "your usual triggers"
    | none => "your usual triggers"
  let motive := match quiz_summary with
    | some qs => orD qs.motivation_reason "your reasons for change"
    | none => "your reasons for change"
  { plan_summary :=
      "This 21-day plan helps you reduce " ++ habit ++
      " with small daily actions, focusing on awareness, friction around " ++ trigger ++
      ", and identity shifts based on " ++ motive ++ "."
    day_tasks := [
      ("day_1", "Write down when and why " ++ habit ++ " usually happens. No pressure to change yet."),
      ("day_2", "Before each urge for " ++ habit ++ ", pause 30 seconds and name what you’re feeling."),
      ("day_3", "Move one step further from your usual " ++ trigger ++ " location before acting."),
      ("day_4", "Choose a 5-minute healthy activity to try once when an urge appears."),
      ("day_5", "Disable one small cue that feeds " ++ habit ++ " (notification, tab, app, or object)."),
      ("day_6", "Set a clear daily cutoff time after which you do not allow " ++ habit ++ "."),
      ("day_7", "Slip-recovery: review this week, note one pattern, and adjust cutoff time if needed."),
      ("day_8", "Delay " ++ habit ++ " by 5 minutes once today and do your chosen healthy activity first."),
      ("day_9", "Change your usual " ++ habit ++ " location; do it somewhere less comfortable if you must."),
      ("day_10", "Tell future-you in a note why reducing " ++ habit ++ " matters over the next 3 months."),
      ("day_11", "Reduce one typical " ++ habit ++ " episode by half in time, intensity, or frequency."),
      ("day_12", "Plan a simple evening routine that does not include your main trigger source."),
      ("day_13", "Practice one ‘urge surfing’ cycle: breathe, observe, and let one urge pass unacted."),
      ("day_14", "Slip-recovery: list three things that went well and one small adjustment for next week."),
      ("day_15", "Define a rule: one specific situation where " ++ habit ++ " is no longer allowed at all."),
      ("day_16", "Replace one full " ++ habit ++ " episode with your healthy alternative, start to finish."),
      ("day_17", "Prepare your environment tonight so tomorrow’s first hour is completely trigger-free."),
      ("day_18", "Teach someone (or journal) one insight you’ve learned about your " ++ habit ++ " triggers."),
      ("day_19", "Create a 2-sentence identity statement about who you’re becoming without this habit."),
      ("day_20", "Plan how you will keep these limits and routines going after Day 21."),
      ("day_21", "Review progress, refresh your identity statement, and choose one long-term keystone rule.")] }

-- ---------------------------------------------------------------------------
-- Stage: Plan Generation (`plan21_node`).
-- ---------------------------------------------------------------------------

/-- Stand-in for `json.dumps(quiz_summary.model_dump(), ensure_ascii=False)`;
the serialization flows only into prompts, and every theorem quantifies over
the generation behaviour, so its exact shape is irrelevant. -/
def quizSummaryJson (s : QuizSummary) : String :=
  "QuizSummary:" ++ String.intercalate "|"
    [s.user_habit_raw, s.canonical_habit_name, s.habit_category,
     s.category_confidence, s.product_type, s.severity_level, s.main_trigger,
     s.peak_times, s.common_locations, s.emotional_patterns,
     s.frequency_pattern, s.previous_attempts, s.motivation_reason,
     s.risk_situations]

/-- Stand-in for `json.dumps(plan21.model_dump(), ensure_ascii=False)`;
prompt-only, like `quizSummaryJson`. -/
def plan21Json (p : Plan21D) : String :=
  "Plan21D:" ++ p.plan_summary ++ "|" ++
    String.intercalate "|" (p.day_tasks.map (fun kv => kv.1 ++ ":" ++ kv.2))

/-- The day task substituted by `plan21_node`'s sanitization loop:
`_fallback_plan21(state.quiz_summary).day_tasks[key]` (the key is always
present for `day_1..day_20`, so the default is never reached). -/
def fallbackDayTask (qs : QuizSummary) (key : String) : String :=
  (sLookup (fallback_plan21 (some qs)).day_tasks key).getD ""

/-- The `try:` body of `plan21_node` applied to the mapping returned by
`_llm_json`: per-key repair of `day_1..day_20` (the source loop is
`range(1, 21)`), default `plan_summary`, then `Plan21D(**data)`; any raise
inside the body (non-dict data, a truthy non-dict `day_tasks`, failed
validation) is caught by the bare `except` and yields the full fallback. -/
def plan21Post (data : JsonVal) (qs : QuizSummary) : Plan21D :=
  match data with
  | .obj fields =>
      let dtv := (jLookup fields "day_tasks").getD (.obj [])
      let dtv := if jsonFalsy dtv then JsonVal.obj [] else dtv
      match dtv with
      | .obj dts0 =>
          let dts := (List.range' 1 20).foldl (fun acc i =>
              let key := dayKey i
              match jLookup acc key with
              | some (.str v) =>
                  if pyBlank v then jSet acc key (.str (fallbackDayTask qs key)) else acc
              | some _ => jSet acc key (.str (fallbackDayTask qs key))
              | none => jSet acc key (.str (fallbackDayTask qs key))) dts0
          let fields := jSet fields "day_tasks" (.obj dts)
          let fields := match jLookup fields "plan_summary" with
            | some (.str _) => fields
            | _ => jSet fields "plan_summary"
                (.str ("Personalized 21-day behavioural plan to reduce " ++
                  qs.canonical_habit_name ++ "."))
          match mkPlan21D fields with
          | some p => p
          | none => fallback_plan21 (some qs)
      | _ => fallback_plan21 (some qs)
  | _ => fallback_plan21 (some qs)

/-- `plan21_node` of `ai_nodes.py`.  Returns the `plan21` field of the
partial update (or an uncaught exception propagated from `_llm_json`, whose
`llm.invoke` sits outside any `try`), together with the number of capability
calls made. -/
def plan21_node (bhv : JsonBhv) (st : HabitState) : Except Unit Plan21D × Nat :=
  match st.quiz_summary with
  | none => (.ok (fallback_plan21 none), 0)
  | some qs =>
      let guidance := category_guidance qs
      let prompt := PLAN_21D_PROMPT_T (quizSummaryJson qs) guidance
      match llm_json bhv prompt 1600 0.35 2 with
      | (.error e, tr) => (.error e, tr.length)
      | (.ok data, tr) => (.ok (plan21Post data qs), tr.length)

-- ---------------------------------------------------------------------------
-- Stage: Day-Rationale (`why_day_node`).
-- ---------------------------------------------------------------------------

/-- The partial update returned by `why_day_node`. -/
structure WhyUpdate where
  last_why_day : String
  last_why_explanation : String
deriving DecidableEq, Repr

/-- Canned guard message when the plan is missing. -/
def whyNoPlanMsg : String :=
  "I can\x27t explain this task yet because your 21-day plan hasn\x27t been generated. " ++
  "Please complete the quiz and generate the plan first."

/-- Canned guard message when the diagnostic summary is missing. -/
def whyNoSummaryMsg : String :=
  "I can\x27t explain this task yet because the diagnostic summary is missing. " ++
  "Try re-running the quiz and plan generation."

/-- Canned guard message when the day has no task. -/
def whyNoTaskMsg (day_key : String) : String :=
  "No task found for " ++ day_key ++ ", so there is nothing to explain."

/-- The fixed generic rationale substituted on any generation failure or a
degenerate (empty / under-5-word) response. -/
def whyFallbackExplanation : String :=
  "This task targets a critical part of your habit loop: the moment between urge and escape. " ++
  "By executing it exactly as written, you train your brain to associate that discomfort with " ++
  "action and progress instead of avoidance and short-term relief."

/-- The context prompt assembled by `why_day_node` (`"".join(prompt_parts)`). -/
def whyDayPrompt (st : HabitState) (qs : QuizSummary) (plan : Plan21D)
    (day_key day_task : String) : String :=
  WHY_DAY_PROMPT ++
  "\n\n---------------- CONTEXT ----------------\n" ++
  "User habit description:\n" ++
  (st.habit_description.getD "") ++
  "\n\nQuiz summary JSON:\n" ++
  quizSummaryJson qs ++
  "\n\nFull 21-day plan JSON:\n" ++
  plan21Json plan ++
  "\n\nFOCUS DAY:\n" ++
  "day_key: " ++ day_key ++ "\n" ++
  "day_task: " ++ day_task ++ "\n" ++
  "\nExplain in 3–6 sentences:\n" ++
  "- Why this specific task exists in the protocol,\n" ++
  "- Which part of the habit mechanism it targets (trigger, craving, avoidance, reward, identity, environment),\n" ++
  "- Why it is placed at this point in the 21-day sequence.\n" ++
  "Be surgical and concrete. No generic motivation talk.\n"

/-- `why_day_node` of `ai_nodes.py`: ordered guards, then a freeform-text
generation call whose failures and degenerate replies all degrade to the
fixed generic rationale.  Returns the partial update and the number of
capability calls made. -/
def why_day_node (bhv : TextBhv) (st : HabitState) (day_key : String) :
    WhyUpdate × Nat :=
  match st.plan21 with
  | none => (⟨day_key, whyNoPlanMsg⟩, 0)
  | some plan =>
      match st.quiz_summary with
      | none => (⟨day_key, whyNoSummaryMsg⟩, 0)
      | some qs =>
          let day_task := (sLookup plan.day_tasks day_key).getD ""
          if day_task = "" then
            (⟨day_key, whyNoTaskMsg day_key⟩, 0)
          else
            let user_prompt := whyDayPrompt st qs plan day_key day_task
            match bhv user_prompt 0.4 with
            | .error _ => (⟨day_key, whyFallbackExplanation⟩, 1)
            | .ok content =>
                let explanation := pyStrip content
                if explanation = "" ∨ (pyWords explanation).length < 5 then
                  (⟨day_key, whyFallbackExplanation⟩, 1)
                else
                  (⟨day_key, explanation⟩, 1)

-- ---------------------------------------------------------------------------
-- Stage: Coaching Turn (`coach_node`).
-- ---------------------------------------------------------------------------

/-- The partial update returned by `coach_node`. -/
structure CoachUpdate where
  coach_reply : String
  chat_history : List ChatMsg
deriving DecidableEq, Repr

/-- The fixed reply of the safety-blocked branch of `coach_node`. -/
def coachBlockReply : String :=
  "I’m here only for habit and behavior coaching, so I can’t help with medical, legal, " ++
  "explicit, or illegal requests. If this is about your health, safety, or a serious " ++
  "situation, please talk to a qualified professional or someone you trust in real life."

/-- The fixed redirect reply substituted when the normal coaching generation
call raises. -/
def coachErrorReply : String :=
  "Let’s focus on one small step you can do today that matches your plan."

/-- `user_message = state.last_user_message or state.habit_description or ""`. -/
def coachUserMessage (st : HabitState) : String :=
  orD (st.last_user_message.getD "") (orD (st.habit_description.getD "") "")

/-- The `history_text` lines (`f"\x7brole\x7d: \x7bcontent\x7d"`) joined with
newlines. -/
def coachHistoryText (st : HabitState) : String :=
  String.intercalate "\n" (st.chat_history.map (fun m => m.role ++ ": " ++ m.content))

/-- The prompt assembled by the normal branch of `coach_node`. -/
def coachPrompt (st : HabitState) : String :=
  let quiz_json := match st.quiz_summary with
    | some qs => quizSummaryJson qs
    | none => "\x7b\x7d"
  let plan_json := match st.plan21 with
    | some p => plan21Json p
    | none => "\x7b\x7d"
  COACH_PROMPT ++ "\n\n" ++
  "quiz_summary_json:\n" ++ quiz_json ++ "\n\n" ++
  "plan_21d_json:\n" ++ plan_json ++ "\n\n" ++
  "history_text:\n" ++ coachHistoryText st ++ "\n\n" ++
  "user_message:\n" ++ coachUserMessage st ++ "\n"

/-- Append the (possibly absent) user turn and the assistant turn to the
chat history, as both branches of `coach_node` do. -/
def coachNewHistory (st : HabitState) (reply : String) : List ChatMsg :=
  let user_message := coachUserMessage st
  (st.chat_history ++
    (if user_message = "" then [] else [⟨"user", user_message⟩])) ++
  [⟨"assistant", reply⟩]

/-- `coach_node` of `ai_nodes.py`: hard safety block, else normal coaching
with a fixed redirect on generation failure.  Returns the partial update and
the number of capability calls made. -/
def coach_node (bhv : TextBhv) (st : HabitState) : CoachUpdate × Nat :=
  if (st.safety.map (·.action)).getD "" = "block_and_escalate" then
    (⟨coachBlockReply, coachNewHistory st coachBlockReply⟩, 0)
  else
    let reply := match bhv (coachPrompt st) 0.6 with
      | .ok r => pyStrip r
      | .error _ => coachErrorReply
    (⟨reply, coachNewHistory st reply⟩, 1)

-- ---------------------------------------------------------------------------
-- Proof infrastructure: substring occurrence and case-folding facts.
-- ---------------------------------------------------------------------------

/-- `sub` occurs as a contiguous substring of `s`. -/
def strHasSub (sub s : String) : Prop := ∃ p q, s = p ++ (sub ++ q)

theorem strHasSub_appendRight (a : String) {sub b : String} (h : strHasSub sub b) :
    strHasSub sub (a ++ b) := by
  obtain ⟨p, q, hb⟩ := h
  exact ⟨a ++ p, q, by rw [hb, String.append_assoc]⟩

theorem strHasSub_appendLeft {sub a : String} (b : String) (h : strHasSub sub a) :
    strHasSub sub (a ++ b) := by
  obtain ⟨p, q, ha⟩ := h
  exact ⟨p, q ++ b, by rw [ha, String.append_assoc, String.append_assoc]⟩

theorem strHasSub_of_eq {s p q sub : String} (h : s = p ++ (sub ++ q)) : strHasSub sub s :=
  ⟨p, q, h⟩

theorem charToNat_ofNat_valid (m : Nat) (h : m < 0xd800) : (Char.ofNat m).toNat = m := by
  rw [Char.ofNat, dif_pos (Or.inl h : Nat.isValidChar m)]
  rfl

theorem charToLower_toLower (c : Char) : c.toLower.toLower = c.toLower := by
  unfold Char.toLower
  by_cases h : c.toNat ≥ 65 ∧ c.toNat ≤ 90
  · rw [if_pos h]
    have hv : (Char.ofNat (c.toNat + 32)).toNat = c.toNat + 32 :=
      charToNat_ofNat_valid _ (by omega)
    rw [if_neg (by omega)]
  · rw [if_neg h, if_neg h]

theorem pyLower_idem (s : String) : pyLower (pyLower s) = pyLower s := by
  show String.mk ((s.data.map Char.toLower).map Char.toLower) = String.mk (s.data.map Char.toLower)
  rw [List.map_map]
  congr 1
  exact List.map_congr_left (fun c _ => charToLower_toLower c)

theorem pyLower_eq_empty_iff (s : String) : pyLower s = "" ↔ s = "" := by
  constructor
  · intro h
    have hd : (pyLower s).data = [] := by rw [h]
    have hmap : s.data.map Char.toLower = [] := hd
    have hnil : s.data = [] := List.map_eq_nil_iff.mp hmap
    cases s with
    | mk data =>
        show String.mk data = String.mk []
        exact congrArg String.mk hnil
  · intro h
    rw [h]
    rfl

-- ---------------------------------------------------------------------------
-- Claim theorems.
-- ---------------------------------------------------------------------------

/-- C2: if any error occurs during the safety stage's generation call, the
stage returns a `SafetyResult` with `risk = "other"`,
`action = "block_and_escalate"` and the fixed non-empty safe message. -/
theorem safety_node_fail_closed (st : HabitState) (bhv : StructBhv SafetyResult)
    (h : bhv (SAFETY_PROMPT_T (stateUserText st)) 0.1 = .error ()) :
    safety_node bhv st = safetyFallbackResult ∧
    (safety_node bhv st).risk = "other" ∧
    (safety_node bhv st).action = "block_and_escalate" ∧
    (safety_node bhv st).message ≠ "" := by
  have he : safety_node bhv st = safetyFallbackResult := by
    unfold safety_node
    rw [h]
  refine ⟨he, ?_, ?_, ?_⟩ <;> rw [he] <;> decide

/-- Witness for C2: a concretely raising capability on the empty state. -/
theorem safety_node_fail_closed_witness :
    safety_node (fun _ _ => .error ()) {} = safetyFallbackResult ∧
    (safety_node (fun _ _ => .error ()) {}).risk = "other" ∧
    (safety_node (fun _ _ => .error ()) {}).action = "block_and_escalate" ∧
    (safety_node (fun _ _ => .error ()) {}).message ≠ "" :=
  safety_node_fail_closed {} (fun _ _ => .error ()) rfl

/-- C4: when `safety.action = "block_and_escalate"`, the coach stage makes no
capability call, returns the fixed safety reply as `coach_reply`, and appends
the user message (if present) and that fixed reply to `chat_history`. -/
theorem coach_node_safety_short_circuit (st : HabitState) (bhv : TextBhv)
    (sf : SafetyResult) (hsf : st.safety = some sf)
    (hact : sf.action = "block_and_escalate") :
    (coach_node bhv st).2 = 0 ∧
    (coach_node bhv st).1.coach_reply = coachBlockReply ∧
    (coach_node bhv st).1.chat_history =
      (st.chat_history ++
        (if coachUserMessage st = "" then []
         else [ChatMsg.mk "user" (coachUserMessage st)])) ++
      [ChatMsg.mk "assistant" coachBlockReply] := by
  have hcond : (st.safety.map (·.action)).getD "" = "block_and_escalate" := by
    rw [hsf]
    simpa using hact
  unfold coach_node
  rw [if_pos hcond]
  exact ⟨rfl, rfl, rfl⟩

/-- A concrete blocked state used by the C4 witness. -/
def c4State : HabitState :=
  { last_user_message := some "hi",
    safety := some ⟨"other", "block_and_escalate", "m"⟩ }

/-- The capability behaviour of the C4 witness. -/
def c4Bhv : TextBhv := fun _ _ => .ok "SHOULD NOT BE USED"

/-- Witness for C4: a blocked state; the capability behaviour is arbitrary. -/
theorem coach_node_safety_short_circuit_witness :
    (coach_node c4Bhv c4State).2 = 0 ∧
    (coach_node c4Bhv c4State).1.coach_reply = coachBlockReply ∧
    (coach_node c4Bhv c4State).1.chat_history =
      (c4State.chat_history ++
        (if coachUserMessage c4State = "" then []
         else [ChatMsg.mk "user" (coachUserMessage c4State)])) ++
      [ChatMsg.mk "assistant" coachBlockReply] :=
  coach_node_safety_short_circuit c4State c4Bhv
    ⟨"other", "block_and_escalate", "m"⟩ rfl rfl

/-- C5: after any coaching turn the new `chat_history` is the old one with
exactly one trailing assistant turn when no user message is present, else
exactly a trailing user turn followed by the assistant turn; prior entries
are untouched. -/
theorem coach_node_chat_history_append_only (st : HabitState) (bhv : TextBhv) :
    ∃ r : String,
      (coach_node bhv st).1.chat_history =
        st.chat_history ++
          (if coachUserMessage st = "" then [ChatMsg.mk "assistant" r]
           else [ChatMsg.mk "user" (coachUserMessage st), ChatMsg.mk "assistant" r]) := by
  unfold coach_node
  by_cases hb : (st.safety.map (·.action)).getD "" = "block_and_escalate"
  · refine ⟨coachBlockReply, ?_⟩
    rw [if_pos hb]
    show coachNewHistory st coachBlockReply = _
    unfold coachNewHistory
    by_cases hu : coachUserMessage st = "" <;> simp [hu]
  · refine ⟨(match bhv (coachPrompt st) 0.6 with
      | .ok r => pyStrip r
      | .error _ => coachErrorReply), ?_⟩
    rw [if_neg hb]
    show coachNewHistory st _ = _
    unfold coachNewHistory
    by_cases hu : coachUserMessage st = "" <;> simp [hu]

/-- C7: with `quiz_summary = None` the plan stage short-circuits with no
capability call and returns exactly `fallback_plan(None)`, whose summary text
uses the three literal placeholders. -/
theorem plan21_node_no_summary_short_circuit (st : HabitState) (bhv : JsonBhv)
    (h : st.quiz_summary = none) :
    plan21_node bhv st = (.ok (fallback_plan21 none), 0) ∧
    strHasSub "your habit" (fallback_plan21 none).plan_summary ∧
    strHasSub "your usual triggers" (fallback_plan21 none).plan_summary ∧
    strHasSub "your reasons for change" (fallback_plan21 none).plan_summary := by
  refine ⟨?_, ?_, ?_, ?_⟩
  · unfold plan21_node
    rw [h]
  · exact strHasSub_of_eq (p := "This 21-day plan helps you reduce ")
      (q := " with small daily actions, focusing on awareness, friction around your usual triggers, and identity shifts based on your reasons for change.") rfl
  · exact strHasSub_of_eq
      (p := "This 21-day plan helps you reduce your habit with small daily actions, focusing on awareness, friction around ")
      (q := ", and identity shifts based on your reasons for change.") rfl
  · exact strHasSub_of_eq
      (p := "This 21-day plan helps you reduce your habit with small daily actions, focusing on awareness, friction around your usual triggers, and identity shifts based on ")
      (q := ".") rfl

/-- Witness for C7: the empty state. -/
theorem plan21_node_no_summary_short_circuit_witness :
    plan21_node (fun _ _ => JOut.raises) {} = (.ok (fallback_plan21 none), 0) ∧
    strHasSub "your habit" (fallback_plan21 none).plan_summary ∧
    strHasSub "your usual triggers" (fallback_plan21 none).plan_summary ∧
    strHasSub "your reasons for change" (fallback_plan21 none).plan_summary :=
  plan21_node_no_summary_short_circuit {} (fun _ _ => JOut.raises) rfl

/-- Shape of the fixed fallback quiz: 8 questions, 4 options each, and the
habit label (the raw description, or "this habit" when it is empty) embedded
in `habit_name_guess` and in every question text. -/
theorem fallbackQuizForm_shape (hd : String) :
    (fallbackQuizForm hd).habit_name_guess = orD hd "this habit" ∧
    (fallbackQuizForm hd).questions.length = 8 ∧
    ∀ q ∈ (fallbackQuizForm hd).questions,
      q.options.length = 4 ∧ strHasSub (orD hd "this habit") q.question := by
  refine ⟨rfl, rfl, ?_⟩
  intro q hq
  simp only [fallbackQuizForm, List.mem_cons, List.not_mem_nil, or_false] at hq
  rcases hq with rfl | rfl | rfl | rfl | rfl | rfl | rfl | rfl <;>
    exact ⟨rfl, _, _, String.append_assoc _ _ _⟩

/-- C6: when the structured generation call fails, the quiz stage returns the
fixed fallback quiz — 8 questions with exactly 4 options each, the literally
enumerated option lists, and the raw habit description (or "this habit" when
empty) embedded as the habit label in `habit_name_guess` and every question
text. -/
theorem quiz_form_node_fallback_on_failure (st : HabitState) (bhv : StructBhv QuizForm)
    (h : bhv (QUIZ_GENERATOR_PROMPT_T (st.habit_description.getD "")) 0.4 = .error ()) :
    quiz_form_node bhv st = fallbackQuizForm (st.habit_description.getD "") ∧
    (quiz_form_node bhv st).habit_name_guess = orD (st.habit_description.getD "") "this habit" ∧
    (quiz_form_node bhv st).questions.length = 8 ∧
    ∀ q ∈ (quiz_form_node bhv st).questions,
      q.options.length = 4 ∧
        strHasSub (orD (st.habit_description.getD "") "this habit") q.question := by
  have he : quiz_form_node bhv st = fallbackQuizForm (st.habit_description.getD "") := by
    unfold quiz_form_node
    simp only []
    rw [h]
  obtain ⟨h1, h2, h3⟩ := fallbackQuizForm_shape (st.habit_description.getD "")
  exact ⟨he, he ▸ h1, he ▸ h2, he ▸ h3⟩

/-- The state of the C6 witness scenario. -/
def zynState : HabitState := { habit_description := some "I\x27m addicted to Zyn pouches" }

/-- Witness for C6: habit "I'm addicted to Zyn pouches", failing capability. -/
theorem quiz_form_node_fallback_on_failure_witness :
    quiz_form_node (fun _ _ => .error ()) zynState =
      fallbackQuizForm (zynState.habit_description.getD "") ∧
    (quiz_form_node (fun _ _ => .error ()) zynState).habit_name_guess =
      orD (zynState.habit_description.getD "") "this habit" ∧
    (quiz_form_node (fun _ _ => .error ()) zynState).questions.length = 8 ∧
    ∀ q ∈ (quiz_form_node (fun _ _ => .error ()) zynState).questions,
      q.options.length = 4 ∧
        strHasSub (orD (zynState.habit_description.getD "") "this habit") q.question :=
  quiz_form_node_fallback_on_failure zynState (fun _ _ => .error ()) rfl

/-- The prompt after `n` parse failures: the original prompt with `n` copies
of the strict-JSON instruction appended. -/
def strictSuffixes (prompt : String) : Nat → String
  | 0 => prompt
  | n + 1 => strictSuffixes prompt n ++ STRICT_JSON_SUFFIX

theorem strictSuffixes_shift (p : String) (n : Nat) :
    strictSuffixes (p ++ STRICT_JSON_SUFFIX) n = strictSuffixes p (n + 1) := by
  induction n with
  | zero => rfl
  | succ k ih =>
      show strictSuffixes (p ++ STRICT_JSON_SUFFIX) k ++ STRICT_JSON_SUFFIX = _
      rw [ih]
      rfl

theorem llmJsonAux_length_le (bhv : JsonBhv) (fuel : Nat) :
    ∀ (attempt : Nat) (prompt : String) (temp : ℚ),
      (llmJsonAux bhv fuel attempt prompt temp).2.length ≤ fuel := by
  induction fuel with
  | zero => intro a p t; simp [llmJsonAux]
  | succ n ih =>
      intro a p t
      unfold llmJsonAux
      simp only []
      split
      · simp
      · simp
      · simpa using Nat.succ_le_succ (ih (a + 1) (p ++ STRICT_JSON_SUFFIX) t)

theorem llmJsonAux_all_parse_fail (bhv : JsonBhv)
    (h : ∀ p t, bhv p t = .returns none) (fuel : Nat) :
    ∀ (attempt : Nat) (prompt : String) (temp : ℚ),
      (llmJsonAux bhv fuel attempt prompt temp).1 = .ok (.obj []) ∧
      (llmJsonAux bhv fuel attempt prompt temp).2.length = fuel := by
  induction fuel with
  | zero => intro a p t; exact ⟨rfl, rfl⟩
  | succ n ih =>
      intro a p t
      unfold llmJsonAux
      simp only [h]
      obtain ⟨h1, h2⟩ := ih (a + 1) (p ++ STRICT_JSON_SUFFIX) t
      exact ⟨h1, by simp [h2]⟩

theorem llmJsonAux_no_raise (bhv : JsonBhv) (h : ∀ p t, bhv p t ≠ .raises)
    (fuel : Nat) :
    ∀ (attempt : Nat) (prompt : String) (temp : ℚ),
      (llmJsonAux bhv fuel attempt prompt temp).1 ≠ .error () := by
  induction fuel with
  | zero => intro a p t hc; cases hc
  | succ n ih =>
      intro a p t
      unfold llmJsonAux
      simp only []
      split
      · rename_i heq
        exact absurd heq (h _ _)
      · intro hc; cases hc
      · simpa using ih (a + 1) (p ++ STRICT_JSON_SUFFIX) t

theorem llmJsonAux_trace_get (bhv : JsonBhv) (fuel : Nat) :
    ∀ (attempt : Nat) (prompt : String) (temp : ℚ) (i : Nat),
      i < (llmJsonAux bhv fuel attempt prompt temp).2.length →
      (llmJsonAux bhv fuel attempt prompt temp).2.get? i =
        some (strictSuffixes prompt i, temp + ((attempt + i : Nat) : ℚ) * 0.2) := by
  induction fuel with
  | zero => intro a p t i h; simp [llmJsonAux] at h
  | succ n ih =>
      intro a p t i
      unfold llmJsonAux
      simp only []
      cases hb : bhv p (t + (a : ℚ) * 0.2) with
      | raises =>
          intro h
          have hi : i = 0 := by simpa using h
          subst hi
          simp [strictSuffixes]
      | returns parsed =>
          cases parsed with
          | some v =>
              intro h
              have hi : i = 0 := by simpa using h
              subst hi
              simp [strictSuffixes]
          | none =>
              intro h
              cases i with
              | zero => simp [strictSuffixes]
              | succ j =>
                  have hj : j < (llmJsonAux bhv n (a + 1) (p ++ STRICT_JSON_SUFFIX) t).2.length :=
                    Nat.lt_of_succ_lt_succ (show j + 1 < _ + 1 from h)
                  have hrec := ih (a + 1) (p ++ STRICT_JSON_SUFFIX) t j hj
                  show (llmJsonAux bhv n (a + 1) (p ++ STRICT_JSON_SUFFIX) t).2.get? j = _
                  rw [hrec, strictSuffixes_shift, show (a + 1) + j = a + (j + 1) from by omega]

/-- C3 (amended): the gateway invokes the capability at most `retries` times
(default 2); call `i` uses the original prompt with `i` strict-JSON
instructions appended and temperature `temperature + 0.2 * i`; when every
call parse-fails it exhausts the budget and returns the empty mapping; and it
never raises **provided the capability itself never raises** (the source's
`llm.invoke` sits outside the `try`, so a capability exception propagates —
see the counterexample). -/
theorem llm_json_retry_contract (bhv : JsonBhv) (prompt : String) (mt : Nat)
    (temp : ℚ) (retries : Nat) :
    (llm_json bhv prompt mt temp retries).2.length ≤ retries ∧
    (∀ i, i < (llm_json bhv prompt mt temp retries).2.length →
      (llm_json bhv prompt mt temp retries).2.get? i =
        some (strictSuffixes prompt i, temp + (i : ℚ) * 0.2)) ∧
    ((∀ p t, bhv p t = .returns none) →
      (llm_json bhv prompt mt temp retries).1 = .ok (.obj []) ∧
      (llm_json bhv prompt mt temp retries).2.length = retries) ∧
    ((∀ p t, bhv p t ≠ .raises) →
      (llm_json bhv prompt mt temp retries).1 ≠ .error ()) := by
  refine ⟨llmJsonAux_length_le bhv retries 0 prompt temp, ?_, ?_, ?_⟩
  · intro i h
    have := llmJsonAux_trace_get bhv retries 0 prompt temp i h
    simpa using this
  · intro hfail
    exact llmJsonAux_all_parse_fail bhv hfail retries 0 prompt temp
  · intro hnr
    exact llmJsonAux_no_raise bhv hnr retries 0 prompt temp

/-- C3 counterexample: with a capability that raises, `_llm_json` itself
raises on the very first call (the `llm.invoke` is outside the `try`), so
"never raises" is false as stated. -/
theorem llm_json_raises_counterexample :
    (llm_json (fun _ _ => JOut.raises) "p").1 = .error () ∧
    (llm_json (fun _ _ => JOut.raises) "p").2.length = 1 :=
  ⟨rfl, rfl⟩

/-- Witness for C3 (amended): a capability that always parse-fails — budget
exhausted after exactly 2 calls, empty mapping returned, no exception. -/
theorem llm_json_retry_contract_witness :
    (llm_json (fun _ _ => JOut.returns none) "p" 800 0.5 2).2.length ≤ 2 ∧
    (llm_json (fun _ _ => JOut.returns none) "p" 800 0.5 2).1 = .ok (.obj []) ∧
    (llm_json (fun _ _ => JOut.returns none) "p" 800 0.5 2).2.length = 2 ∧
    (llm_json (fun _ _ => JOut.returns none) "p" 800 0.5 2).2.get? 1 =
      some (strictSuffixes "p" 1, 0.5 + (1 : ℚ) * 0.2) ∧
    (llm_json (fun _ _ => JOut.returns none) "p" 800 0.5 2).1 ≠ .error () := by
  obtain ⟨h1, h2, h3, h4⟩ := llm_json_retry_contract (fun _ _ => JOut.returns none) "p" 800 0.5 2
  obtain ⟨ha, hb⟩ := h3 (fun _ _ => rfl)
  refine ⟨h1, ha, hb, h2 1 (by rw [hb]; omega), h4 (fun _ _ hr => by cases hr)⟩

/-- The diagnostic profile of the C1 failing scenario. -/
def c1Qs : QuizSummary :=
  { user_habit_raw := "zyn pouches", canonical_habit_name := "zyn",
    habit_category := "nicotine_oral" }

/-- The state of the C1 failing scenario. -/
def c1State : HabitState := { quiz_summary := some c1Qs }

/-- A generated `day_tasks` mapping with valid `day_1..day_20` and a blank
(whitespace-only) `day_21`. -/
def c1DayTasks : List (String × JsonVal) :=
  (List.range' 1 20).map (fun i => (dayKey i, JsonVal.str ("task " ++ toString i))) ++
    [("day_21", JsonVal.str " ")]

/-- The full generated mapping of the C1 failing scenario. -/
def c1Data : JsonVal :=
  .obj [("plan_summary", .str "generated summary"), ("day_tasks", .obj c1DayTasks)]

/-- A capability whose JSON parse always yields `c1Data`. -/
def c1Bhv : JsonBhv := fun _ _ => .returns (some c1Data)

/-- C1 (code bug, evaluated at the failing input): the sanitization loop of
`plan21_node` is `for i in range(1, 21)` and covers only `day_1..day_20`, so
a blank generated `day_21` (here `" "`) survives into the returned plan
instead of being replaced by the fallback day-21 task; moreover, when the
capability raises, the stage propagates the exception (no plan at all), since
the `_llm_json` call sits outside the `try`. -/
theorem plan21_node_day21_unsanitized :
    (plan21_node c1Bhv c1State).1 = .ok (plan21Post c1Data c1Qs) ∧
    sLookup (plan21Post c1Data c1Qs).day_tasks "day_21" = some " " ∧
    pyBlank " " = true ∧
    sLookup (fallback_plan21 (some c1Qs)).day_tasks "day_21" =
      some "Review progress, refresh your identity statement, and choose one long-term keystone rule." ∧
    (plan21_node (fun _ _ => JOut.raises) c1State).1 = .error () := by
  refine ⟨rfl, by decide, rfl, by decide, rfl⟩

/-- The nicotine category block contains its header and its four
minimum-quota bullet lines (their fixed parts), for every summary. -/
theorem nicotineBlock_contains (s : QuizSummary) :
    strHasSub "Category: Nicotine" (nicotineBlock s) ∧
    strHasSub "- At least 4 tasks about changing where " (nicotineBlock s) ∧
    strHasSub "- At least 4 tasks about first use of the day and last use window." (nicotineBlock s) ∧
    strHasSub "- At least 3 tasks about physical state regulation during withdrawal (sleep window, hydration, body movement)." (nicotineBlock s) ∧
    strHasSub "- At least 3 tasks that use emotional patterns like " (nicotineBlock s) := by
  unfold nicotineBlock
  refine ⟨?_, ?_, ?_, ?_, ?_⟩
  · repeat apply strHasSub_appendLeft
    exact strHasSub_of_eq (p := "\n") (q := "\n\nCore strategy:\n- Treat ") rfl
  · apply strHasSub_appendLeft
    apply strHasSub_appendLeft
    apply strHasSub_appendLeft
    apply strHasSub_appendLeft
    apply strHasSub_appendRight
    exact strHasSub_of_eq
      (p := ".\n- Explicitly build friction around storage, access, purchase, and first use of the day.\n- For oral products like pouches, include mouth and hand substitution tasks.\n- For higher severity, include more aggressive environment restructuring and longer urge delays.\n\nMust include across 21 days:\n")
      (q := "") rfl
  · apply strHasSub_appendLeft
    apply strHasSub_appendLeft
    apply strHasSub_appendRight
    exact strHasSub_of_eq (p := " is kept or accessed.\n")
      (q := "\n- At least 3 tasks about physical state regulation during withdrawal (sleep window, hydration, body movement).\n- At least 3 tasks that use emotional patterns like ") rfl
  · apply strHasSub_appendLeft
    apply strHasSub_appendLeft
    apply strHasSub_appendRight
    exact strHasSub_of_eq
      (p := " is kept or accessed.\n- At least 4 tasks about first use of the day and last use window.\n")
      (q := "\n- At least 3 tasks that use emotional patterns like ") rfl
  · apply strHasSub_appendLeft
    apply strHasSub_appendLeft
    apply strHasSub_appendRight
    exact strHasSub_of_eq
      (p := " is kept or accessed.\n- At least 4 tasks about first use of the day and last use window.\n- At least 3 tasks about physical state regulation during withdrawal (sleep window, hydration, body movement).\n")
      (q := "") rfl

/-- The default block carries the `Other or unclear` header. -/
theorem otherBlock_contains_header (s : QuizSummary) :
    strHasSub "Category: Other or unclear" (otherBlock s) := by
  unfold otherBlock
  repeat apply strHasSub_appendLeft
  exact strHasSub_of_eq (p := "\n")
    (q := "\n\nCore strategy:\n- The category label is not precise, so lean heavily on the user\x27s actual patterns.\n- Design tasks explicitly around the main trigger ") rfl

/-- C8: the category guidance engine is deterministic (it is a pure function
of the summary); for every summary whose `habit_category` is
`"nicotine_oral"` its output is the base context followed by the
`Category: Nicotine` block and contains that header with its four
minimum-quota bullet lines; and every lowercased category matching no entry
of the dispatch table selects the `Other or unclear` default branch. -/
theorem category_guidance_nicotine_and_default (s : QuizSummary) :
    (∀ t : QuizSummary, s = t → category_guidance s = category_guidance t) ∧
    (s.habit_category = "nicotine_oral" →
      category_guidance s = guidanceBaseContext s ++ "\n" ++ nicotineBlock s ∧
      strHasSub "Category: Nicotine" (category_guidance s) ∧
      strHasSub "- At least 4 tasks about changing where " (category_guidance s) ∧
      strHasSub "- At least 4 tasks about first use of the day and last use window." (category_guidance s) ∧
      strHasSub "- At least 3 tasks about physical state regulation during withdrawal (sleep window, hydration, body movement)." (category_guidance s) ∧
      strHasSub "- At least 3 tasks that use emotional patterns like " (category_guidance s)) ∧
    (guidanceCat s ∉ knownCategoryKeys →
      category_guidance s = guidanceBaseContext s ++ "\n" ++ otherBlock s ∧
      strHasSub "Category: Other or unclear" (category_guidance s)) := by
  refine ⟨fun t ht => by rw [ht], ?_, ?_⟩
  · intro h
    have hcat : guidanceCat s = "nicotine_oral" := by
      unfold guidanceCat orD
      rw [h]
      decide
    have hguid : category_guidance s = guidanceBaseContext s ++ "\n" ++ nicotineBlock s := by
      unfold category_guidance
      rw [hcat]
      unfold categoryBlock
      rw [if_pos (Or.inr (Or.inr rfl))]
    obtain ⟨hb1, hb2, hb3, hb4, hb5⟩ := nicotineBlock_contains s
    rw [hguid]
    exact ⟨rfl, strHasSub_appendRight _ hb1, strHasSub_appendRight _ hb2,
      strHasSub_appendRight _ hb3, strHasSub_appendRight _ hb4,
      strHasSub_appendRight _ hb5⟩
  · intro h
    simp only [knownCategoryKeys, List.mem_cons, List.not_mem_nil, or_false, not_or] at h
    obtain ⟨h1, h2, h3, h4, h5, h6, h7, h8, h9, h10, h11, h12, h13, h14⟩ := h
    have hblock : categoryBlock (guidanceCat s) s = otherBlock s := by
      unfold categoryBlock
      rw [if_neg (by tauto), if_neg h4, if_neg (by tauto), if_neg (by tauto),
        if_neg (by tauto), if_neg (by tauto), if_neg h14]
    have hguid : category_guidance s = guidanceBaseContext s ++ "\n" ++ otherBlock s := by
      unfold category_guidance
      rw [hblock]
    rw [hguid]
    exact ⟨rfl, strHasSub_appendRight _ (otherBlock_contains_header s)⟩

/-- The summary of the C8 nicotine witness scenario. -/
def nicSevereQs : QuizSummary :=
  { habit_category := "nicotine_oral", severity_level := "severe" }

/-- The summary of the C8 default-branch witness scenario. -/
def unknownCatQs : QuizSummary := { habit_category := "Stargazing Too Much" }

/-- Witness for C8: `nicotine_oral`/`severe` selects the Nicotine block with
its bullets; an unknown category selects the default branch. -/
theorem category_guidance_nicotine_and_default_witness :
    strHasSub "Category: Nicotine" (category_guidance nicSevereQs) ∧
    strHasSub "- At least 4 tasks about first use of the day and last use window." (category_guidance nicSevereQs) ∧
    strHasSub "Category: Other or unclear" (category_guidance unknownCatQs) :=
  ⟨((category_guidance_nicotine_and_default nicSevereQs).2.1 rfl).2.1,
   ((category_guidance_nicotine_and_default nicSevereQs).2.1 rfl).2.2.2.1,
   ((category_guidance_nicotine_and_default unknownCatQs).2.2 (by decide)).2⟩

/-- C10: guidance is invariant under the letter case of `habit_category` —
the category is lowercased before dispatch, and no other part of the engine
reads it. -/
theorem category_guidance_case_insensitive (s : QuizSummary) (x : String) :
    category_guidance { s with habit_category := x } =
    category_guidance { s with habit_category := pyLower x } := by
  have hkey : guidanceCat { s with habit_category := x } =
      guidanceCat { s with habit_category := pyLower x } := by
    show pyLower (orD x "other") = pyLower (orD (pyLower x) "other")
    unfold orD
    by_cases hx : x = ""
    · subst hx
      decide
    · have hlx : pyLower x ≠ "" := fun hc => hx ((pyLower_eq_empty_iff x).mp hc)
      rw [if_neg hx, if_neg hlx, pyLower_idem]
  unfold category_guidance
  rw [hkey]
  rfl

/-- C9: `why_day_node` checks its guards in order — plan missing, summary
missing, task missing — each short-circuiting with its canned explanation and
zero capability calls; when generation runs, an exception or an empty or
under-5-word reply is replaced by the fixed generic rationale; and on every
path `last_why_day` equals the requested day key. -/
theorem why_day_node_guards_and_fallback (st : HabitState) (bhv : TextBhv) (dk : String) :
    (why_day_node bhv st dk).1.last_why_day = dk ∧
    (st.plan21 = none →
      why_day_node bhv st dk = (⟨dk, whyNoPlanMsg⟩, 0)) ∧
    (∀ plan, st.plan21 = some plan → st.quiz_summary = none →
      why_day_node bhv st dk = (⟨dk, whyNoSummaryMsg⟩, 0)) ∧
    (∀ plan qs, st.plan21 = some plan → st.quiz_summary = some qs →
      ((sLookup plan.day_tasks dk).getD "" = "" →
        why_day_node bhv st dk = (⟨dk, whyNoTaskMsg dk⟩, 0)) ∧
      ((sLookup plan.day_tasks dk).getD "" ≠ "" →
        (bhv (whyDayPrompt st qs plan dk ((sLookup plan.day_tasks dk).getD "")) 0.4 = .error () →
          why_day_node bhv st dk = (⟨dk, whyFallbackExplanation⟩, 1)) ∧
        (∀ content,
          bhv (whyDayPrompt st qs plan dk ((sLookup plan.day_tasks dk).getD "")) 0.4 = .ok content →
          (pyStrip content = "" ∨ (pyWords (pyStrip content)).length < 5) →
          why_day_node bhv st dk = (⟨dk, whyFallbackExplanation⟩, 1)))) := by
  refine ⟨?_, ?_, ?_, ?_⟩
  · unfold why_day_node
    cases st.plan21 with
    | none => rfl
    | some plan =>
        cases st.quiz_summary with
        | none => rfl
        | some qs =>
            simp only []
            by_cases hdt : (sLookup plan.day_tasks dk).getD "" = ""
            · rw [if_pos hdt]
            · rw [if_neg hdt]
              cases bhv (whyDayPrompt st qs plan dk ((sLookup plan.day_tasks dk).getD "")) 0.4 with
              | error e => rfl
              | ok content =>
                  simp only []
                  by_cases hc : pyStrip content = "" ∨ (pyWords (pyStrip content)).length < 5
                  · rw [if_pos hc]
                  · rw [if_neg hc]
  · intro h
    simp only [why_day_node, h]
  · intro plan hp hq
    simp only [why_day_node, hp, hq]
  · intro plan qs hp hq
    constructor
    · intro hdt
      simp only [why_day_node, hp, hq]
      rw [if_pos hdt]
    · intro hdt
      constructor
      · intro herr
        simp only [why_day_node, hp, hq]
        rw [if_neg hdt, herr]
      · intro content hok hshort
        simp only [why_day_node, hp, hq]
        rw [if_neg hdt, hok]
        simp only []
        rw [if_pos hshort]

/-- Witness for C9: a state with no plan and day key `"day_5"` returns
`last_why_day = "day_5"` with the canned no-plan message and zero capability
calls. -/
theorem why_day_node_guards_and_fallback_witness :
    why_day_node (fun _ _ => .ok "ignored") {} "day_5" = (⟨"day_5", whyNoPlanMsg⟩, 0) ∧
    (why_day_node (fun _ _ => .ok "ignored") {} "day_5").1.last_why_day = "day_5" :=
  ⟨(why_day_node_guards_and_fallback {} (fun _ _ => .ok "ignored") "day_5").2.1 rfl,
   (why_day_node_guards_and_fallback {} (fun _ _ => .ok "ignored") "day_5").1⟩
